import Mathlib

/-!
Shallow embedding of the view-mode resolution logic of the Obsidian
"force view mode of note" plugin (`src/main.ts`).

The embedded core is the event handler `readViewModeFromFrontmatterAndToggle`
(src/main.ts:44-210) together with its helpers `setFolderOrFileModeState`
(src/main.ts:72-100), `alreadyOpen` (src/main.ts:240-254) and
`resetOpenedNotes` (src/main.ts:256-270).

Modelling conventions:
* A pane's view state is reduced to the two fields the handler reads and
  writes: `state.state.mode` (a string) and `state.state.source` (a boolean).
  `view.getMode()` returns the pane's current mode, which coincides with
  `leaf.getViewState().state.mode` for a markdown view, so both reads are
  modelled by the single field `DisplayState.mode`.
* JavaScript regular-expression search (`basename.match(filePattern)`,
  src/main.ts:129) is abstracted as an oracle `search : String → String →
  Bool` applied to the note's basename; its truthiness is the oracle's
  result.
* `leaf.view` being a `MarkdownView` with its backing file is modelled as
  `Option NoteFile`: `none` is the "view is null" early-return branch
  (src/main.ts:49-55); for a markdown leaf delivered by the host the
  backing file is present.
* JavaScript string primitives that the Lean kernel cannot evaluate are
  replaced by character-list equivalents: `jsStartsWith` for
  `String.prototype.startsWith`, `splitOnColon` for `split(":")`,
  `trimChars` for `String.prototype.trim`.
* Frontmatter lookup of the two recognized keys is modelled by an optional
  record holding the two optional string values; JavaScript truthiness of
  a string value is `s ≠ ""`.
-/

/-- JS `String.prototype.trim` on a character list. -/
def trimChars (cs : List Char) : List Char :=
  ((cs.dropWhile Char.isWhitespace).reverse.dropWhile Char.isWhitespace).reverse

/-- JS `String.prototype.split(":")` on a character list. -/
def splitOnColon : List Char → List (List Char)
  | [] => [[]]
  | c :: cs =>
    if c = ':' then [] :: splitOnColon cs
    else
      match splitOnColon cs with
      | [] => [[c]]
      | p :: ps => (c :: p) :: ps

/-- JS `String.prototype.startsWith` (src/main.ts:106). -/
def jsStartsWith (s pre : String) : Bool :=
  pre.toList.isPrefixOf s.toList

/-- `this.OBSIDIAN_UI_MODE_KEY` (src/main.ts:32). -/
def OBSIDIAN_UI_MODE_KEY : String := "obsidianUIMode"

/-- `this.OBSIDIAN_EDITING_MODE_KEY` (src/main.ts:33). -/
def OBSIDIAN_EDITING_MODE_KEY : String := "obsidianEditingMode"

/-- The two fields of `leaf.getViewState().state` that the handler reads and
writes: `mode` and `source` (src/main.ts:137-140). -/
structure DisplayState where
  mode : String
  source : Bool
deriving DecidableEq, Repr

/-- One entry of `settings.folders` (src/main.ts:17). -/
structure FolderRule where
  folder : String
  viewMode : String
deriving DecidableEq, Repr

/-- One entry of `settings.files` (src/main.ts:18). -/
structure FileRule where
  filePattern : String
  viewMode : String
deriving DecidableEq, Repr

/-- `ViewModeByFrontmatterSettings` (src/main.ts:13-19); `debounceTimeout`
is not part of the resolution pass and is omitted. -/
structure Settings where
  ignoreOpenFiles : Bool
  ignoreForceViewAll : Bool
  folders : List FolderRule
  files : List FileRule
deriving DecidableEq, Repr

/-- The backing `TFile` of a markdown view: its extension-stripped
`basename` and the path of its parent folder (`file.parent.path`). -/
structure NoteFile where
  basename : String
  parentPath : String
deriving DecidableEq, Repr

/-- A `MarkdownView` as seen by `resetOpenedNotes`: `view.file` may be
null (src/main.ts:266 pushes `leaf.view?.file?.basename`). -/
structure MarkdownViewModel where
  file : Option NoteFile
deriving DecidableEq, Repr

/-- A workspace leaf: `leaf.view` is a `MarkdownView` or something else
(`none`). -/
structure Leaf where
  view : Option MarkdownViewModel
deriving DecidableEq, Repr

/-- `this.app.vault.config`: `defaultViewMode` and `livePreview` may be
absent (src/main.ts:189-193). -/
structure VaultConfig where
  defaultViewMode : Option String
  livePreview : Option Bool
deriving DecidableEq, Repr

/-- The two recognized frontmatter entries of a file cache:
`frontmatter[OBSIDIAN_UI_MODE_KEY]` and
`frontmatter[OBSIDIAN_EDITING_MODE_KEY]`; an absent key is `none`. -/
structure Frontmatter where
  uiMode : Option String
  editingMode : Option String
deriving DecidableEq, Repr

/-- `this.app.metadataCache.getFileCache(view.file)`: the cache may be null,
and its `frontmatter` may be absent (src/main.ts:150-158). -/
structure FileCache where
  frontmatter : Option Frontmatter
deriving DecidableEq, Repr

/-- `const [key, mode] = viewMode.split(":").map((s) => s.trim())`
(src/main.ts:73): the trimmed parts of the directive string. -/
def directiveParts (viewMode : String) : List String :=
  (splitOnColon viewMode.toList).map (fun p => String.mk (trimChars p))

/-- The destructured `key` of a directive (`split` never yields an empty
array, so the head always exists). -/
def directiveKey (viewMode : String) : String :=
  (directiveParts viewMode).headD ""

/-- The destructured `mode` of a directive; `none` is JS `undefined` when
the directive has no `":"`. -/
def directiveMode (viewMode : String) : Option String :=
  (directiveParts viewMode).get? 1

/-- `setFolderOrFileModeState` (src/main.ts:72-100). `paneState` is the
captured `state.state`, `prev` the current value of the captured variable
`folderOrFileModeState`, and the result its value after the call. -/
def setFolderOrFileModeState (paneState : DisplayState) (prev : Option DisplayState)
    (viewMode : String) : Option DisplayState :=
  if directiveKey viewMode = "default" then
    none
  else
    match directiveMode viewMode with
    | none => prev
    | some mode =>
      if mode ∈ ["live", "preview", "source"] then
        let st : DisplayState := { paneState with mode := mode }
        if directiveKey viewMode = OBSIDIAN_EDITING_MODE_KEY then
          if mode = "live" then some { st with source := false, mode := "source" }
          else some { st with source := true }
        else if directiveKey viewMode = OBSIDIAN_UI_MODE_KEY then
          some { st with source := false }
        else
          some st
      else
        prev

/-- The guard under which a folder rule fires (src/main.ts:103-106):
non-empty folder path, truthy directive string, the configured path
resolves to an existing vault folder, and the note's parent folder is that
folder (`===`, i.e. equal path) or its path starts with the folder's path. -/
def FolderRuleApplies (vaultFolders : List String) (parentPath : String)
    (r : FolderRule) : Prop :=
  r.folder ≠ "" ∧ r.viewMode ≠ "" ∧ r.folder ∈ vaultFolders ∧
    (parentPath = r.folder ∨ jsStartsWith parentPath r.folder)

instance (vaultFolders : List String) (parentPath : String) (r : FolderRule) :
    Decidable (FolderRuleApplies vaultFolders parentPath r) := by
  unfold FolderRuleApplies; infer_instance

/-- One iteration of the folder loop (src/main.ts:102-117). A folder path
that does not resolve to a vault folder only logs a warning; the defensive
`!state.state` check never fires in the model (the state is present). -/
def folderRuleStep (vaultFolders : List String) (paneState : DisplayState)
    (parentPath : String) (acc : Option DisplayState) (r : FolderRule) :
    Option DisplayState :=
  if r.folder ≠ "" ∧ r.viewMode ≠ "" then
    if r.folder ∈ vaultFolders then
      if parentPath = r.folder ∨ jsStartsWith parentPath r.folder then
        setFolderOrFileModeState paneState acc r.viewMode
      else acc
    else acc
  else acc

/-- The folder loop (src/main.ts:102-117): fold of `folderRuleStep` over
`settings.folders`, starting from the initial `folderOrFileModeState = null`. -/
def applyFolderRules (vaultFolders : List String) (paneState : DisplayState)
    (parentPath : String) (rules : List FolderRule) : Option DisplayState :=
  rules.foldl (folderRuleStep vaultFolders paneState parentPath) none

/-- The guard under which a file rule fires (src/main.ts:119-131):
truthy pattern and directive, and the regex search on the basename
succeeds. -/
def FileRuleApplies (search : String → String → Bool) (basename : String)
    (r : FileRule) : Prop :=
  r.filePattern ≠ "" ∧ r.viewMode ≠ "" ∧ search basename r.filePattern

instance (search : String → String → Bool) (basename : String) (r : FileRule) :
    Decidable (FileRuleApplies search basename r) := by
  unfold FileRuleApplies; infer_instance

/-- One iteration of the file loop (src/main.ts:119-134); the defensive
`!state.state` check never fires in the model. -/
def fileRuleStep (search : String → String → Bool) (paneState : DisplayState)
    (basename : String) (acc : Option DisplayState) (r : FileRule) :
    Option DisplayState :=
  if r.filePattern ≠ "" ∧ r.viewMode ≠ "" then
    if search basename r.filePattern then
      setFolderOrFileModeState paneState acc r.viewMode
    else acc
  else acc

/-- The file loop (src/main.ts:119-134): fold of `fileRuleStep` over
`settings.files`, continuing from the folder loop's result. -/
def applyFileRules (search : String → String → Bool) (paneState : DisplayState)
    (basename : String) (prev : Option DisplayState) (rules : List FileRule) :
    Option DisplayState :=
  rules.foldl (fileRuleStep search paneState basename) prev

/-- The rule-matching tier: the value of `folderOrFileModeState` after both
loops (src/main.ts:102-134). -/
def matchFolderOrFileRules (search : String → String → Bool)
    (vaultFolders : List String) (settings : Settings)
    (paneState : DisplayState) (file : NoteFile) : Option DisplayState :=
  applyFileRules search paneState file.basename
    (applyFolderRules vaultFolders paneState file.parentPath settings.folders)
    settings.files

/-- `alreadyOpen` (src/main.ts:240-254); registry entries are the pushed
`leaf.view?.file?.basename` values, hence optional strings, and the JS `==`
comparison of an `undefined` entry with a basename is false. -/
def alreadyOpen (currFile : Option NoteFile) (openedFiles : List (Option String)) :
    Bool :=
  match currFile with
  | none => false
  | some f =>
    let leavesWithSameNote := openedFiles.filter (fun e => e == some f.basename)
    leavesWithSameNote.length != 0

/-- `resetOpenedNotes` (src/main.ts:256-270): collect
`leaf.view?.file?.basename` over every workspace leaf whose view is a
markdown view. -/
def resetOpenedNotes (leaves : List Leaf) : List (Option String) :=
  leaves.foldl
    (fun acc l =>
      match l.view with
      | none => acc
      | some v => acc ++ [v.file.map (fun f => f.basename)])
    []

/-- `config.defaultViewMode ? config.defaultViewMode : "source"`
(src/main.ts:189-191); a falsy (absent or empty) configured value yields
`"source"`. -/
def effectiveDefaultViewMode (cfg : VaultConfig) : String :=
  match cfg.defaultViewMode with
  | some v => if v = "" then "source" else v
  | none => "source"

/-- `config.livePreview === undefined ? true : config.livePreview`
(src/main.ts:193). -/
def effectiveLivePreview (cfg : VaultConfig) : Bool :=
  cfg.livePreview.getD true

/-- `fileCache !== null && fileCache.frontmatter ? frontmatter[KEY] : null`
(src/main.ts:151-154) for the view-mode key. -/
def declaredUIMode (fileCache : Option FileCache) : Option String :=
  match fileCache with
  | some c =>
    match c.frontmatter with
    | some fm => fm.uiMode
    | none => none
  | none => none

/-- Same lookup for the editing-mode key (src/main.ts:155-158). -/
def declaredEditingMode (fileCache : Option FileCache) : Option String :=
  match fileCache with
  | some c =>
    match c.frontmatter with
    | some fm => fm.editingMode
    | none => none
  | none => none

/-- JS truthiness of a frontmatter value (`if (fileDeclaredUIMode)`). -/
def truthy : Option String → Bool
  | none => false
  | some s => s != ""

/-- Which branch of the handler terminated the pass. -/
inductive PassStep where
  | noView
  | skippedAlreadyOpen
  | ruleWrite
  | ruleNoop
  | metadataWrite
  | defaultWrite
  | defaultSuppressed
deriving DecidableEq, Repr

/-- Observable outcome of one resolution pass: the state written through
`leaf.setViewState` (if any), the value of `this.openedFiles` after the
pass, and the branch taken. -/
structure PassResult where
  write : Option DisplayState
  openedFiles : List (Option String)
  step : PassStep
deriving DecidableEq, Repr

/-- Tiers 2 and 3 of the handler: frontmatter metadata (src/main.ts:148-187)
and the global default (src/main.ts:189-207), reached when no folder or
file rule produced a state. -/
def resolveMetadataOrDefault (cfg : VaultConfig) (leaves : List Leaf)
    (settings : Settings) (openedFiles : List (Option String))
    (fileCache : Option FileCache) (paneState : DisplayState) : PassResult :=
  let fileDeclaredUIMode := declaredUIMode fileCache
  let fileDeclaredEditingMode := declaredEditingMode fileCache
  let state1 : DisplayState :=
    match fileDeclaredUIMode with
    | some v =>
      if v ≠ "" ∧ v ∈ ["source", "preview", "live"] ∧ paneState.mode ≠ v then
        { paneState with mode := v }
      else paneState
    | none => paneState
  let state2 : DisplayState :=
    match fileDeclaredEditingMode with
    | some v =>
      if v ≠ "" ∧ v ∈ ["source", "live"] then
        { state1 with source := (v = "source") }
      else state1
    | none => state1
  if truthy fileDeclaredUIMode ∨ truthy fileDeclaredEditingMode then
    { write := some state2
      openedFiles :=
        if settings.ignoreOpenFiles then resetOpenedNotes leaves else openedFiles
      step := .metadataWrite }
  else
    if settings.ignoreForceViewAll = false then
      let st : DisplayState :=
        { mode :=
            if paneState.mode ≠ effectiveDefaultViewMode cfg then
              effectiveDefaultViewMode cfg
            else paneState.mode
          source := if effectiveLivePreview cfg then false else true }
      { write := some st
        openedFiles := resetOpenedNotes leaves
        step := .defaultWrite }
    else
      { write := none, openedFiles := openedFiles, step := .defaultSuppressed }

/-- `readViewModeFromFrontmatterAndToggle` (src/main.ts:44-210) as a pure
function of its environment. `file = none` is the branch where `leaf.view`
is not a markdown view (src/main.ts:49-55). -/
def readViewModeFromFrontmatterAndToggle (search : String → String → Bool)
    (vaultFolders : List String) (cfg : VaultConfig) (leaves : List Leaf)
    (settings : Settings) (openedFiles : List (Option String))
    (file : Option NoteFile) (fileCache : Option FileCache)
    (paneState : DisplayState) : PassResult :=
  match file with
  | none =>
    { write := none
      openedFiles :=
        if settings.ignoreOpenFiles then resetOpenedNotes leaves else openedFiles
      step := .noView }
  | some f =>
    if settings.ignoreOpenFiles ∧ alreadyOpen (some f) openedFiles then
      { write := none, openedFiles := resetOpenedNotes leaves
        step := .skippedAlreadyOpen }
    else
      match matchFolderOrFileRules search vaultFolders settings paneState f with
      | some target =>
        if paneState.mode ≠ target.mode ∨ paneState.source ≠ target.source then
          { write := some { mode := target.mode, source := target.source }
            openedFiles := openedFiles
            step := .ruleWrite }
        else
          { write := none, openedFiles := openedFiles, step := .ruleNoop }
      | none =>
        resolveMetadataOrDefault cfg leaves settings openedFiles fileCache paneState

/-- Two rule-matching runs over the same rule lists but different pane
states stay in lock-step: both accumulators are `none`, or both hold the
applied state of the same directive string. -/
def RelState (σ τ : DisplayState) (a b : Option DisplayState) : Prop :=
  (a = none ∧ b = none) ∨
    ∃ vm, a = setFolderOrFileModeState σ none vm ∧
      b = setFolderOrFileModeState τ none vm ∧ a.isSome = true


section Lemmas

variable {vault : List String} {parent basename : String}
variable {σ τ : DisplayState}

/-- A directive string behaves uniformly in `setFolderOrFileModeState`,
independently of the pane state and of the previously matched directive:
it is either ignored (malformed mode), clearing (`default` key), or
applied (valid mode), and an applied directive does not read the previous
match. -/
theorem setState_shape (vm : String) :
    (∀ (σ : DisplayState) (prev : Option DisplayState),
        setFolderOrFileModeState σ prev vm = prev) ∨
    (∀ (σ : DisplayState) (prev : Option DisplayState),
        setFolderOrFileModeState σ prev vm = none) ∨
    (∀ (σ : DisplayState) (prev : Option DisplayState),
        setFolderOrFileModeState σ prev vm = setFolderOrFileModeState σ none vm
          ∧ (setFolderOrFileModeState σ none vm).isSome = true) := by
  by_cases hk : directiveKey vm = "default"
  · right; left; intro σ prev; simp [setFolderOrFileModeState, hk]
  · cases hm : directiveMode vm with
    | none => left; intro σ prev; simp [setFolderOrFileModeState, hk, hm]
    | some m =>
      by_cases hv : m ∈ ["live", "preview", "source"]
      · right; right; intro σ prev
        constructor
        · simp [setFolderOrFileModeState, hk, hm, hv]
        · simp only [setFolderOrFileModeState, hk, hm, hv, if_true, if_false,
            ite_true, ite_false, if_neg, reduceIte]
          split <;> (try split) <;> simp_all
      · left; intro σ prev; simp [setFolderOrFileModeState, hk, hm, hv]

theorem setState_default {vm : String} (h : directiveKey vm = "default")
    (σ : DisplayState) (prev : Option DisplayState) :
    setFolderOrFileModeState σ prev vm = none := by
  simp [setFolderOrFileModeState, h]

theorem folderRuleStep_applies {r : FolderRule}
    (h : FolderRuleApplies vault parent r) (acc : Option DisplayState) :
    folderRuleStep vault σ parent acc r = setFolderOrFileModeState σ acc r.viewMode := by
  unfold folderRuleStep
  split_ifs with h1 h2 h3
  · rfl
  · exact absurd h.2.2.2 h3
  · exact absurd h.2.2.1 h2
  · exact absurd ⟨h.1, h.2.1⟩ h1

theorem folderRuleStep_not_applies {r : FolderRule}
    (h : ¬FolderRuleApplies vault parent r) (acc : Option DisplayState) :
    folderRuleStep vault σ parent acc r = acc := by
  unfold folderRuleStep
  split_ifs with h1 h2 h3
  · exact absurd ⟨h1.1, h1.2, h2, h3⟩ h
  all_goals rfl

theorem fileRuleStep_applies {search : String → String → Bool} {r : FileRule}
    (h : FileRuleApplies search basename r) (acc : Option DisplayState) :
    fileRuleStep search σ basename acc r = setFolderOrFileModeState σ acc r.viewMode := by
  unfold fileRuleStep
  split_ifs with h1 h2
  · rfl
  · exact absurd h.2.2 h2
  · exact absurd ⟨h.1, h.2.1⟩ h1

theorem fileRuleStep_not_applies {search : String → String → Bool} {r : FileRule}
    (h : ¬FileRuleApplies search basename r) (acc : Option DisplayState) :
    fileRuleStep search σ basename acc r = acc := by
  unfold fileRuleStep
  split_ifs with h1 h2
  · exact absurd ⟨h1.1, h1.2, h2⟩ h
  all_goals rfl

theorem foldl_folder_no_match {rules : List FolderRule}
    (h : ∀ r ∈ rules, ¬FolderRuleApplies vault parent r) (acc : Option DisplayState) :
    rules.foldl (folderRuleStep vault σ parent) acc = acc := by
  induction rules generalizing acc with
  | nil => rfl
  | cons r rs ih =>
    simp only [List.foldl_cons]
    rw [folderRuleStep_not_applies (h r (by simp)) acc]
    exact ih (fun r' hr' => h r' (by simp [hr'])) acc

theorem foldl_file_no_match {search : String → String → Bool} {rules : List FileRule}
    (h : ∀ r ∈ rules, ¬FileRuleApplies search basename r) (acc : Option DisplayState) :
    rules.foldl (fileRuleStep search σ basename) acc = acc := by
  induction rules generalizing acc with
  | nil => rfl
  | cons r rs ih =>
    simp only [List.foldl_cons]
    rw [fileRuleStep_not_applies (h r (by simp)) acc]
    exact ih (fun r' hr' => h r' (by simp [hr'])) acc

/-- An applied (valid, non-`default`) directive ignores the previously
matched state. -/
theorem setState_prev_irrelevant {vm : String} {t : DisplayState}
    (ht : setFolderOrFileModeState σ none vm = some t) (acc : Option DisplayState) :
    setFolderOrFileModeState σ acc vm = some t := by
  rcases setState_shape vm with hL | hM | hR
  · rw [hL σ none] at ht; cases ht
  · rw [hM σ none] at ht; cases ht
  · rw [(hR σ acc).1]; exact ht

theorem applyFolderRules_last {pre post : List FolderRule} {r : FolderRule}
    {t : DisplayState}
    (hr : FolderRuleApplies vault parent r)
    (hpost : ∀ r' ∈ post, ¬FolderRuleApplies vault parent r')
    (ht : setFolderOrFileModeState σ none r.viewMode = some t) :
    applyFolderRules vault σ parent (pre ++ r :: post) = some t := by
  unfold applyFolderRules
  rw [List.foldl_append, List.foldl_cons, folderRuleStep_applies hr,
    setState_prev_irrelevant ht]
  exact foldl_folder_no_match hpost _

theorem applyFileRules_last {search : String → String → Bool}
    {pre post : List FileRule} {r : FileRule} {t : DisplayState}
    (hr : FileRuleApplies search basename r)
    (hpost : ∀ r' ∈ post, ¬FileRuleApplies search basename r')
    (ht : setFolderOrFileModeState σ none r.viewMode = some t)
    (prev : Option DisplayState) :
    applyFileRules search σ basename prev (pre ++ r :: post) = some t := by
  unfold applyFileRules
  rw [List.foldl_append, List.foldl_cons, fileRuleStep_applies hr,
    setState_prev_irrelevant ht]
  exact foldl_file_no_match hpost _

end Lemmas

section Stability

theorem relState_set {σ τ : DisplayState} {a b : Option DisplayState} (vm : String)
    (h : RelState σ τ a b) :
    RelState σ τ (setFolderOrFileModeState σ a vm) (setFolderOrFileModeState τ b vm) := by
  rcases setState_shape vm with hL | hM | hR
  · rw [hL σ a, hL τ b]; exact h
  · rw [hM σ a, hM τ b]; left; exact ⟨rfl, rfl⟩
  · right
    refine ⟨vm, (hR σ a).1, (hR τ b).1, ?_⟩
    rw [(hR σ a).1]
    exact (hR σ none).2

theorem relState_foldl_folder {vault : List String} {parent : String}
    {σ τ : DisplayState} {a b : Option DisplayState} (rules : List FolderRule)
    (h : RelState σ τ a b) :
    RelState σ τ (rules.foldl (folderRuleStep vault σ parent) a)
      (rules.foldl (folderRuleStep vault τ parent) b) := by
  induction rules generalizing a b with
  | nil => exact h
  | cons r rs ih =>
    simp only [List.foldl_cons]
    apply ih
    by_cases hr : FolderRuleApplies vault parent r
    · rw [folderRuleStep_applies hr a, folderRuleStep_applies hr b]
      exact relState_set r.viewMode h
    · rw [folderRuleStep_not_applies hr a, folderRuleStep_not_applies hr b]
      exact h

theorem relState_foldl_file {search : String → String → Bool} {basename : String}
    {σ τ : DisplayState} {a b : Option DisplayState} (rules : List FileRule)
    (h : RelState σ τ a b) :
    RelState σ τ (rules.foldl (fileRuleStep search σ basename) a)
      (rules.foldl (fileRuleStep search τ basename) b) := by
  induction rules generalizing a b with
  | nil => exact h
  | cons r rs ih =>
    simp only [List.foldl_cons]
    apply ih
    by_cases hr : FileRuleApplies search basename r
    · rw [fileRuleStep_applies hr a, fileRuleStep_applies hr b]
      exact relState_set r.viewMode h
    · rw [fileRuleStep_not_applies hr a, fileRuleStep_not_applies hr b]
      exact h

/-- Applying a directive to the very state it produced reproduces that
state: the applied `mode` is determined by the directive, and the `source`
flag is either forced by the directive's key or copied unchanged from the
pane state. -/
theorem setState_self {σ t : DisplayState} {vm : String}
    (h : setFolderOrFileModeState σ none vm = some t) :
    setFolderOrFileModeState t none vm = some t := by
  by_cases hk : directiveKey vm = "default"
  · simp [setFolderOrFileModeState, hk] at h
  · cases hm : directiveMode vm with
    | none => simp [setFolderOrFileModeState, hk, hm] at h
    | some m =>
      by_cases hv : m ∈ ["live", "preview", "source"]
      · by_cases hke : directiveKey vm = OBSIDIAN_EDITING_MODE_KEY
        · by_cases hml : m = "live"
          · simp only [setFolderOrFileModeState, hk, hm, hv, hke, hml] at h ⊢
            simp_all
          · simp only [setFolderOrFileModeState, hk, hm, hv, hke, hml] at h ⊢
            simp_all
        · by_cases hku : directiveKey vm = OBSIDIAN_UI_MODE_KEY
          · simp only [setFolderOrFileModeState, hk, hm, hv, hke, hku] at h ⊢
            simp_all
          · simp only [setFolderOrFileModeState, hk, hm, hv, hke, hku] at h ⊢
            obtain rfl : ({ σ with mode := m } : DisplayState) = t := by simp_all
            simp
      · simp [setFolderOrFileModeState, hk, hm, hv] at h

/-- Re-running the rule matcher on the state it produced resolves to that
same state. -/
theorem matchRules_self {search : String → String → Bool} {vault : List String}
    {settings : Settings} {σ t : DisplayState} {f : NoteFile}
    (h : matchFolderOrFileRules search vault settings σ f = some t) :
    matchFolderOrFileRules search vault settings t f = some t := by
  have hrel : RelState σ t (matchFolderOrFileRules search vault settings σ f)
      (matchFolderOrFileRules search vault settings t f) := by
    unfold matchFolderOrFileRules applyFileRules applyFolderRules
    exact relState_foldl_file settings.files
      (relState_foldl_folder settings.folders (Or.inl ⟨rfl, rfl⟩))
  rcases hrel with ⟨h1, _⟩ | ⟨vm, h1, h2, _⟩
  · rw [h] at h1; cases h1
  · rw [h] at h1
    rw [h2, setState_self h1.symm]

end Stability

/-- C1, counterexample: the claim "a resolution pass never issues a pane
state-write when the computed target equals the pane's current state, on
all three tiers" is false on the metadata tier. With frontmatter
`obsidianUIMode: preview`, no rules, and a pane already in
`{mode := "preview", source := false}`, the computed target equals the
current state, yet the pass still issues a `setViewState` write of that
very state (src/main.ts:179-180 writes unconditionally whenever a truthy
key is present); a second identical invocation writes again. -/
theorem C1_counterexample :
    (readViewModeFromFrontmatterAndToggle (fun _ _ => false) [] ⟨some "preview", some true⟩
      [] ⟨false, false, [], []⟩ [] (some ⟨"x", "f"⟩)
      (some ⟨some ⟨some "preview", none⟩⟩) ⟨"preview", false⟩).write
      = some ⟨"preview", false⟩ := by decide

/-- C1 (amended): the no-write-on-equal guard holds on the folder/file-rule
tier only. If the rule matcher resolves the pane state `σ` to a target `t`,
then (a) when `t` already equals `σ` no state-write is issued, and (b) a
subsequent pass on the pane state `t` (the state a rule-tier write leaves
behind) issues no state-write — so on this tier invoking resolution twice
on an unchanged note produces at most one write. On the metadata and
global-default tiers the code writes unconditionally. -/
theorem C1_rule_tier_idempotent (search : String → String → Bool)
    (vault : List String) (cfg : VaultConfig) (leaves : List Leaf)
    (settings : Settings) (openedFiles : List (Option String)) (f : NoteFile)
    (fileCache : Option FileCache) (σ t : DisplayState)
    (hIgnore : settings.ignoreOpenFiles = false)
    (hmatch : matchFolderOrFileRules search vault settings σ f = some t) :
    (t = σ →
      (readViewModeFromFrontmatterAndToggle search vault cfg leaves settings
        openedFiles (some f) fileCache σ).write = none) ∧
    (readViewModeFromFrontmatterAndToggle search vault cfg leaves settings
        openedFiles (some f) fileCache t).write = none := by
  constructor
  · rintro rfl
    simp [readViewModeFromFrontmatterAndToggle, hIgnore, hmatch]
  · have hmatch2 : matchFolderOrFileRules search vault settings t f = some t :=
      matchRules_self hmatch
    simp [readViewModeFromFrontmatterAndToggle, hIgnore, hmatch2]

/-- C1, witness for the amended theorem at a concrete input: a folder rule
`obsidianUIMode: preview` on folder `"n"` resolves the pane state
`{mode := "source", source := true}` to `{mode := "preview", source := false}`;
a pass on a pane already in that target state issues no write. -/
theorem C1_witness :
    (readViewModeFromFrontmatterAndToggle (fun _ _ => false) ["n"] ⟨none, none⟩ []
      ⟨false, false, [⟨"n", "obsidianUIMode: preview"⟩], []⟩ [] (some ⟨"x", "n"⟩)
      none ⟨"preview", false⟩).write = none :=
  (C1_rule_tier_idempotent (fun _ _ => false) ["n"] ⟨none, none⟩ []
    ⟨false, false, [⟨"n", "obsidianUIMode: preview"⟩], []⟩ [] ⟨"x", "n"⟩
    none ⟨"source", true⟩ ⟨"preview", false⟩ rfl (by decide)).2

/-- C3: for a note matching at least one folder rule and at least one file
rule, the directive selected is that of the last matching file rule `r`
(last in `settings.files` order with no later match): the rule tier
resolves to `r`'s applied state, overwriting whatever the folder rules
produced — file rules strictly dominate folder rules, with last-match-wins
among file rules. File matching is the abstracted regular-expression
search (`search`) applied to the note's basename. -/
theorem C3_file_rules_dominate (search : String → String → Bool)
    (vault : List String) (settings : Settings) (σ : DisplayState) (f : NoteFile)
    (pre post : List FileRule) (r : FileRule) (t : DisplayState)
    (hfiles : settings.files = pre ++ r :: post)
    (hr : FileRuleApplies search f.basename r)
    (hpost : ∀ r' ∈ post, ¬FileRuleApplies search f.basename r')
    (ht : setFolderOrFileModeState σ none r.viewMode = some t)
    (_hfolder : ∃ rf ∈ settings.folders, FolderRuleApplies vault f.parentPath rf) :
    matchFolderOrFileRules search vault settings σ f = some t := by
  unfold matchFolderOrFileRules
  rw [hfiles]
  exact applyFileRules_last hr hpost ht _

/-- C3, witness: folder rule `obsidianUIMode: preview` on folder `"n"`
matches, and the file rule `obsidianEditingMode: source` on the basename
also matches; the rule tier resolves to the file rule's state
`{mode := "source", source := true}`, not the folder rule's. -/
theorem C3_witness :
    matchFolderOrFileRules (fun _ _ => true) ["n"]
      ⟨false, false, [⟨"n", "obsidianUIMode: preview"⟩],
        [⟨"pat", "obsidianEditingMode: source"⟩]⟩
      ⟨"preview", false⟩ ⟨"note", "n"⟩ = some ⟨"source", true⟩ :=
  C3_file_rules_dominate (fun _ _ => true) ["n"]
    ⟨false, false, [⟨"n", "obsidianUIMode: preview"⟩],
      [⟨"pat", "obsidianEditingMode: source"⟩]⟩
    ⟨"preview", false⟩ ⟨"note", "n"⟩ [] [] ⟨"pat", "obsidianEditingMode: source"⟩
    ⟨"source", true⟩ rfl (by decide) (by simp) (by decide) (by decide)

/-- C4, counterexample: with only `obsidianEditingMode: source` declared,
no matching rules, and global default view mode `"preview"`, the pass
writes `{mode := "source", source := true}` — the view-mode portion stays
at the pane's current mode `"source"` instead of following the global
default `"preview"`, because the handler returns at the metadata tier
(src/main.ts:179-187) and never reaches the tier-3 fallback. -/
theorem C4_counterexample :
    (readViewModeFromFrontmatterAndToggle (fun _ _ => false) [] ⟨some "preview", some true⟩
        [] ⟨false, false, [], []⟩ [] (some ⟨"x", "f"⟩)
        (some ⟨some ⟨none, some "source"⟩⟩) ⟨"source", false⟩).write
      = some ⟨"source", true⟩ ∧
    (⟨"source", true⟩ : DisplayState).mode ≠ effectiveDefaultViewMode ⟨some "preview", some true⟩ := by
  decide

/-- C4 (amended): for a note whose frontmatter declares only the
editing-mode key with value `"source"` (no view-mode key, no matching
rule), the resolved state has `source = true` and its view mode is left at
the pane's current mode; the pass ends at the metadata tier, so the tier-3
global default is not applied to the view-mode portion. -/
theorem C4_editing_mode_only (search : String → String → Bool)
    (vault : List String) (cfg : VaultConfig) (leaves : List Leaf)
    (settings : Settings) (openedFiles : List (Option String)) (f : NoteFile)
    (fileCache : Option FileCache) (σ : DisplayState)
    (hskip : ¬(settings.ignoreOpenFiles = true ∧ alreadyOpen (some f) openedFiles = true))
    (hmatch : matchFolderOrFileRules search vault settings σ f = none)
    (hui : declaredUIMode fileCache = none)
    (hed : declaredEditingMode fileCache = some "source") :
    (readViewModeFromFrontmatterAndToggle search vault cfg leaves settings
        openedFiles (some f) fileCache σ).write = some ⟨σ.mode, true⟩ ∧
    (readViewModeFromFrontmatterAndToggle search vault cfg leaves settings
        openedFiles (some f) fileCache σ).step = .metadataWrite := by
  have h : readViewModeFromFrontmatterAndToggle search vault cfg leaves settings
      openedFiles (some f) fileCache σ
      = resolveMetadataOrDefault cfg leaves settings openedFiles fileCache σ := by
    simp only [readViewModeFromFrontmatterAndToggle]
    rw [if_neg hskip, hmatch]
  rw [h]
  simp [resolveMetadataOrDefault, hui, hed, truthy]

/-- C4, witness: the amended theorem at the counterexample's input. -/
theorem C4_witness :
    (readViewModeFromFrontmatterAndToggle (fun _ _ => false) [] ⟨some "preview", some true⟩
        [] ⟨false, false, [], []⟩ [] (some ⟨"x", "f"⟩)
        (some ⟨some ⟨none, some "source"⟩⟩) ⟨"source", false⟩).write
      = some ⟨"source", true⟩ :=
  (C4_editing_mode_only (fun _ _ => false) [] ⟨some "preview", some true⟩
    [] ⟨false, false, [], []⟩ [] ⟨"x", "f"⟩ (some ⟨some ⟨none, some "source"⟩⟩)
    ⟨"source", false⟩ (by decide) rfl rfl rfl).1

/-- C5: in a folder-rule list where several rules match the same note
(e.g. overlapping parent and child folder paths), the directive finally
selected by the folder loop is that of the last matching rule in list
order: with `r` the last matching rule (nothing after it matches) carrying
a well-formed, non-default directive, the loop's result is `r`'s applied
state, overwriting every earlier match. -/
theorem C5_last_folder_rule_wins (vault : List String) (σ : DisplayState)
    (parent : String) (pre post : List FolderRule) (r : FolderRule) (t : DisplayState)
    (hr : FolderRuleApplies vault parent r)
    (_hpre : ∃ r' ∈ pre, FolderRuleApplies vault parent r')
    (hpost : ∀ r' ∈ post, ¬FolderRuleApplies vault parent r')
    (ht : setFolderOrFileModeState σ none r.viewMode = some t) :
    applyFolderRules vault σ parent (pre ++ r :: post) = some t :=
  applyFolderRules_last hr hpost ht

/-- C5, witness: parent-folder rule `obsidianUIMode: preview` on `"a"`
and child-folder rule `obsidianEditingMode: source` on `"a/b"` both match
a note in `"a/b"`; the later (child) rule's directive is selected. -/
theorem C5_witness :
    applyFolderRules ["a", "a/b"] ⟨"preview", false⟩ "a/b"
      ([⟨"a", "obsidianUIMode: preview"⟩] ++ ⟨"a/b", "obsidianEditingMode: source"⟩ :: [])
      = some ⟨"source", true⟩ :=
  C5_last_folder_rule_wins ["a", "a/b"] ⟨"preview", false⟩ "a/b"
    [⟨"a", "obsidianUIMode: preview"⟩] [] ⟨"a/b", "obsidianEditingMode: source"⟩
    ⟨"source", true⟩ (by decide) (by decide) (by simp) (by decide)

/-- C6: when the last applicable rule carries the sentinel directive
`default` — either the last matching file rule, or (when no file rule
matches) the last matching folder rule — any previously matched directive
is cleared: the rule tier yields no state, no rule-derived write happens,
and the pass falls through to the metadata/global-default resolution
rather than applying a no-op state. -/
theorem C6_default_clears (search : String → String → Bool)
    (vault : List String) (cfg : VaultConfig) (leaves : List Leaf)
    (settings : Settings) (openedFiles : List (Option String)) (f : NoteFile)
    (fileCache : Option FileCache) (σ : DisplayState)
    (hskip : ¬(settings.ignoreOpenFiles = true ∧ alreadyOpen (some f) openedFiles = true))
    (hdef :
      (∃ pre r post, settings.files = pre ++ r :: post ∧
          FileRuleApplies search f.basename r ∧ directiveKey r.viewMode = "default" ∧
          ∀ r' ∈ post, ¬FileRuleApplies search f.basename r') ∨
      ((∀ r' ∈ settings.files, ¬FileRuleApplies search f.basename r') ∧
        ∃ pre r post, settings.folders = pre ++ r :: post ∧
          FolderRuleApplies vault f.parentPath r ∧ directiveKey r.viewMode = "default" ∧
          ∀ r' ∈ post, ¬FolderRuleApplies vault f.parentPath r')) :
    matchFolderOrFileRules search vault settings σ f = none ∧
    readViewModeFromFrontmatterAndToggle search vault cfg leaves settings
        openedFiles (some f) fileCache σ
      = resolveMetadataOrDefault cfg leaves settings openedFiles fileCache σ := by
  have hnone : matchFolderOrFileRules search vault settings σ f = none := by
    rcases hdef with ⟨pre, r, post, hf, hr, hk, hpost⟩ | ⟨hfiles, pre, r, post, hf, hr, hk, hpost⟩
    · unfold matchFolderOrFileRules applyFileRules
      rw [hf, List.foldl_append, List.foldl_cons, fileRuleStep_applies hr,
        setState_default hk]
      exact foldl_file_no_match hpost none
    · unfold matchFolderOrFileRules applyFileRules applyFolderRules
      rw [hf, List.foldl_append, List.foldl_cons, folderRuleStep_applies hr,
        setState_default hk, foldl_folder_no_match hpost none]
      exact foldl_file_no_match hfiles none
  refine ⟨hnone, ?_⟩
  simp only [readViewModeFromFrontmatterAndToggle]
  rw [if_neg hskip, hnone]

/-- C6, witness: a matching folder rule `obsidianUIMode: preview` followed
by a matching file rule `default`: the file rule clears the folder match
and the pass equals the metadata/default resolution. -/
theorem C6_witness :
    matchFolderOrFileRules (fun _ _ => true) ["n"]
        ⟨false, false, [⟨"n", "obsidianUIMode: preview"⟩], [⟨"pat", "default"⟩]⟩
        ⟨"source", true⟩ ⟨"note", "n"⟩ = none ∧
    readViewModeFromFrontmatterAndToggle (fun _ _ => true) ["n"] ⟨none, none⟩ []
        ⟨false, false, [⟨"n", "obsidianUIMode: preview"⟩], [⟨"pat", "default"⟩]⟩ []
        (some ⟨"note", "n"⟩) none ⟨"source", true⟩
      = resolveMetadataOrDefault ⟨none, none⟩ []
        ⟨false, false, [⟨"n", "obsidianUIMode: preview"⟩], [⟨"pat", "default"⟩]⟩ []
        none ⟨"source", true⟩ :=
  C6_default_clears (fun _ _ => true) ["n"] ⟨none, none⟩ []
    ⟨false, false, [⟨"n", "obsidianUIMode: preview"⟩], [⟨"pat", "default"⟩]⟩ []
    ⟨"note", "n"⟩ none ⟨"source", true⟩ (by decide)
    (Or.inl ⟨[], ⟨"pat", "default"⟩, [], rfl, by decide, by decide, by simp⟩)

/-- C7, counterexample: folder matching is a raw string-prefix test on the
parent path (src/main.ts:106), so a note in the sibling folder
`"notes-archive"` does match a rule for folder `"notes"` (both folders
exist in the vault), contrary to the claim that only true subfolders
match. -/
theorem C7_counterexample :
    applyFolderRules ["notes", "notes-archive"] ⟨"source", true⟩ "notes-archive"
      [⟨"notes", "obsidianUIMode: preview"⟩] = some ⟨"preview", false⟩ := by decide

/-- C7 (amended): a folder rule with a non-empty folder path, a truthy
directive that applies, and a folder existing in the vault matches exactly
when the note's parent path equals the rule's folder path or starts with
it as a plain string prefix — which includes sibling folders whose name
shares a leading string with the rule's folder path. -/
theorem C7_folder_match_is_string_prefix (vault : List String) (σ : DisplayState)
    (parent : String) (r : FolderRule) (t : DisplayState)
    (h1 : r.folder ≠ "") (h2 : r.viewMode ≠ "") (h3 : r.folder ∈ vault)
    (ht : setFolderOrFileModeState σ none r.viewMode = some t) :
    applyFolderRules vault σ parent [r]
      = if parent = r.folder ∨ jsStartsWith parent r.folder then some t else none := by
  unfold applyFolderRules
  simp only [List.foldl_cons, List.foldl_nil]
  by_cases hm : parent = r.folder ∨ jsStartsWith parent r.folder
  · rw [if_pos hm, folderRuleStep_applies ⟨h1, h2, h3, hm⟩ none, ht]
  · rw [if_neg hm, folderRuleStep_not_applies (fun hc => hm hc.2.2.2) none]

/-- C7, witness: the amended theorem at the sibling-folder input; the
prefix condition holds for `"notes-archive"` against `"notes"`, so the
rule matches. -/
theorem C7_witness :
    applyFolderRules ["notes", "notes-archive"] ⟨"source", true⟩ "notes-archive"
        [⟨"notes", "obsidianUIMode: preview"⟩]
      = if "notes-archive" = "notes" ∨ jsStartsWith "notes-archive" "notes"
        then some ⟨"preview", false⟩ else none :=
  C7_folder_match_is_string_prefix ["notes", "notes-archive"] ⟨"source", true⟩
    "notes-archive" ⟨"notes", "obsidianUIMode: preview"⟩ ⟨"preview", false⟩
    (by decide) (by decide) (by decide) (by decide)

/-- C8: for a note with no matching folder or file rule and with both
recognized frontmatter keys absent, the pass applies the global default
exactly — it writes `{mode := effective default view mode, source :=
negation of the live-preview default}` and rebuilds the registry — unless
default-forcing is disabled (`ignoreForceViewAll`), in which case no
state write occurs at all. -/
theorem C8_global_default (search : String → String → Bool)
    (vault : List String) (cfg : VaultConfig) (leaves : List Leaf)
    (settings : Settings) (openedFiles : List (Option String)) (f : NoteFile)
    (fileCache : Option FileCache) (σ : DisplayState)
    (hskip : ¬(settings.ignoreOpenFiles = true ∧ alreadyOpen (some f) openedFiles = true))
    (hfolders : ∀ r ∈ settings.folders, ¬FolderRuleApplies vault f.parentPath r)
    (hfiles : ∀ r ∈ settings.files, ¬FileRuleApplies search f.basename r)
    (hui : declaredUIMode fileCache = none)
    (hed : declaredEditingMode fileCache = none) :
    (settings.ignoreForceViewAll = false →
      readViewModeFromFrontmatterAndToggle search vault cfg leaves settings
          openedFiles (some f) fileCache σ
        = { write := some ⟨effectiveDefaultViewMode cfg, !effectiveLivePreview cfg⟩
            openedFiles := resetOpenedNotes leaves
            step := .defaultWrite }) ∧
    (settings.ignoreForceViewAll = true →
      (readViewModeFromFrontmatterAndToggle search vault cfg leaves settings
          openedFiles (some f) fileCache σ).write = none) := by
  have hnone : matchFolderOrFileRules search vault settings σ f = none := by
    unfold matchFolderOrFileRules applyFileRules applyFolderRules
    rw [foldl_folder_no_match hfolders none]
    exact foldl_file_no_match hfiles none
  have h : readViewModeFromFrontmatterAndToggle search vault cfg leaves settings
      openedFiles (some f) fileCache σ
      = resolveMetadataOrDefault cfg leaves settings openedFiles fileCache σ := by
    simp only [readViewModeFromFrontmatterAndToggle]
    rw [if_neg hskip, hnone]
  rw [h]
  constructor
  · intro hforce
    simp only [resolveMetadataOrDefault, hui, hed, truthy, hforce]
    have hmode : (if σ.mode ≠ effectiveDefaultViewMode cfg then effectiveDefaultViewMode cfg
        else σ.mode) = effectiveDefaultViewMode cfg := by
      by_cases hσ : σ.mode = effectiveDefaultViewMode cfg <;> simp [hσ]
    have hsrc : (if effectiveLivePreview cfg then false else true)
        = !effectiveLivePreview cfg := by
      cases hl : effectiveLivePreview cfg <;> simp
    simp [hmode, hsrc]
  · intro hforce
    simp [resolveMetadataOrDefault, hui, hed, truthy, hforce]

/-- C8, witness: with no rules, no frontmatter keys, default view mode
`"preview"` and live preview enabled, the pass writes exactly the global
default. -/
theorem C8_witness :
    readViewModeFromFrontmatterAndToggle (fun _ _ => false) [] ⟨some "preview", some true⟩
        [] ⟨false, false, [], []⟩ [] (some ⟨"x", "f"⟩) none ⟨"source", true⟩
      = { write := some ⟨effectiveDefaultViewMode ⟨some "preview", some true⟩,
            !effectiveLivePreview ⟨some "preview", some true⟩⟩
          openedFiles := resetOpenedNotes []
          step := .defaultWrite } :=
  (C8_global_default (fun _ _ => false) [] ⟨some "preview", some true⟩ []
    ⟨false, false, [], []⟩ [] ⟨"x", "f"⟩ none ⟨"source", true⟩
    (by decide) (by simp) (by simp) rfl rfl).1 rfl

section Registry

/-- Entries already accumulated survive the `resetOpenedNotes` fold. -/
theorem mem_foldl_resetStep (leaves : List Leaf) (acc : List (Option String))
    (x : Option String) (hx : x ∈ acc) :
    x ∈ leaves.foldl
      (fun acc l =>
        match l.view with
        | none => acc
        | some v => acc ++ [v.file.map (fun f => f.basename)])
      acc := by
  induction leaves generalizing acc with
  | nil => exact hx
  | cons l ls ih =>
    simp only [List.foldl_cons]
    cases l.view with
    | none => exact ih acc hx
    | some v => exact ih _ (by simp [hx])

/-- A note hosted by some markdown leaf contributes its basename to the
rebuilt registry. -/
theorem mem_resetOpenedNotes {leaves : List Leaf} {g : NoteFile}
    (h : ∃ l ∈ leaves, l.view = some ⟨some g⟩) :
    some g.basename ∈ resetOpenedNotes leaves := by
  unfold resetOpenedNotes
  obtain ⟨l, hl, hv⟩ := h
  have main : ∀ (ls : List Leaf) (acc : List (Option String)), l ∈ ls →
      some g.basename ∈ ls.foldl
        (fun acc l =>
          match l.view with
          | none => acc
          | some v => acc ++ [v.file.map (fun f => f.basename)])
        acc := by
    intro ls
    induction ls with
    | nil => intro acc h; cases h
    | cons a as ih =>
      intro acc hmem
      rcases List.mem_cons.1 hmem with rfl | hmem
      · simp only [List.foldl_cons, hv]
        exact mem_foldl_resetStep as _ _ (by simp)
      · simp only [List.foldl_cons]
        cases a.view with
        | none => exact ih acc hmem
        | some v => exact ih _ hmem
  exact main leaves [] hl

/-- Registry membership is exactly basename equality. -/
theorem alreadyOpen_some_iff (f : NoteFile) (reg : List (Option String)) :
    alreadyOpen (some f) reg = true ↔ some f.basename ∈ reg := by
  induction reg with
  | nil => simp [alreadyOpen]
  | cons e rest ih =>
    by_cases he : e = some f.basename
    · simp [alreadyOpen, he]
    · simp only [alreadyOpen, List.filter_cons] at ih ⊢
      rw [show (e == some f.basename) = false by simp [he]]
      simp only [if_false, Bool.false_eq_true, ite_false]
      rw [List.mem_cons]
      simp only [ih]
      constructor
      · exact Or.inr
      · rintro (h | h)
        · exact absurd h.symm he
        · exact h

end Registry

/-- C9: when suppression of already-open notes is enabled and the
triggering note is in the registry at resolution time, the pass performs no
rule, metadata, or default resolution and issues no state-write; the
registry is rebuilt by a full re-scan of all panes and the pass ends
(src/main.ts:57-65). -/
theorem C9_skip_already_open (search : String → String → Bool)
    (vault : List String) (cfg : VaultConfig) (leaves : List Leaf)
    (settings : Settings) (openedFiles : List (Option String)) (f : NoteFile)
    (fileCache : Option FileCache) (σ : DisplayState)
    (h1 : settings.ignoreOpenFiles = true)
    (h2 : alreadyOpen (some f) openedFiles = true) :
    readViewModeFromFrontmatterAndToggle search vault cfg leaves settings
        openedFiles (some f) fileCache σ
      = { write := none, openedFiles := resetOpenedNotes leaves
          step := .skippedAlreadyOpen } := by
  simp [readViewModeFromFrontmatterAndToggle, h1, h2]

/-- C9, witness: an already-open note is skipped with no write and a
rebuilt registry. -/
theorem C9_witness :
    readViewModeFromFrontmatterAndToggle (fun _ _ => false) [] ⟨none, none⟩
        [⟨some ⟨some ⟨"x", "f"⟩⟩⟩] ⟨true, false, [], []⟩ [some "x"]
        (some ⟨"x", "f"⟩) none ⟨"source", true⟩
      = { write := none, openedFiles := resetOpenedNotes [⟨some ⟨some ⟨"x", "f"⟩⟩⟩]
          step := .skippedAlreadyOpen } :=
  C9_skip_already_open (fun _ _ => false) [] ⟨none, none⟩ [⟨some ⟨some ⟨"x", "f"⟩⟩⟩]
    ⟨true, false, [], []⟩ [some "x"] ⟨"x", "f"⟩ none ⟨"source", true⟩ rfl (by decide)

/-- C10: note identity in the registry and in the already-open check is the
extension-stripped basename only: `alreadyOpen` of a null file is false;
`alreadyOpen` of a file is true exactly when some registry entry equals its
basename; and consequently, with suppression enabled, a note is suppressed
(no state-write) whenever any open pane hosts a note sharing its basename —
even a distinct note in a different folder. -/
theorem C10_identity_is_basename :
    (∀ reg, alreadyOpen none reg = false) ∧
    (∀ (f : NoteFile) (reg : List (Option String)),
      alreadyOpen (some f) reg = true ↔ some f.basename ∈ reg) ∧
    (∀ (search : String → String → Bool) (vault : List String) (cfg : VaultConfig)
        (leaves : List Leaf) (settings : Settings) (f g : NoteFile)
        (fileCache : Option FileCache) (σ : DisplayState),
      settings.ignoreOpenFiles = true →
      (∃ l ∈ leaves, l.view = some ⟨some g⟩) →
      g.basename = f.basename →
      (readViewModeFromFrontmatterAndToggle search vault cfg leaves settings
          (resetOpenedNotes leaves) (some f) fileCache σ).write = none) := by
  refine ⟨fun reg => rfl, alreadyOpen_some_iff, ?_⟩
  intro search vault cfg leaves settings f g fileCache σ h1 hg hgb
  have hmem : some f.basename ∈ resetOpenedNotes leaves := hgb ▸ mem_resetOpenedNotes hg
  have hopen : alreadyOpen (some f) (resetOpenedNotes leaves) = true :=
    (alreadyOpen_some_iff f _).2 hmem
  simp [readViewModeFromFrontmatterAndToggle, h1, hopen]

/-- C10, witness: two notes named `"x"` in different folders `"p"` and
`"q"`; with suppression enabled, the note in `"q"` is suppressed because a
pane hosts the note in `"p"`. -/
theorem C10_witness :
    (readViewModeFromFrontmatterAndToggle (fun _ _ => false) [] ⟨none, none⟩
        [⟨some ⟨some ⟨"x", "p"⟩⟩⟩] ⟨true, false, [], []⟩
        (resetOpenedNotes [⟨some ⟨some ⟨"x", "p"⟩⟩⟩]) (some ⟨"x", "q"⟩) none
        ⟨"source", true⟩).write = none :=
  C10_identity_is_basename.2.2 (fun _ _ => false) [] ⟨none, none⟩
    [⟨some ⟨some ⟨"x", "p"⟩⟩⟩] ⟨true, false, [], []⟩ ⟨"x", "q"⟩ ⟨"x", "p"⟩ none
    ⟨"source", true⟩ rfl ⟨⟨some ⟨some ⟨"x", "p"⟩⟩⟩, by simp, rfl⟩ rfl
